import Mathlib

/-!
Verification development for the abi-core orchestration workflow engine.

The subject is AbiOrchestratorAgent (agents/orchestrator/agent/orchestrator.py):
the directed-graph task model and the execution controller of its stream method.
The supporting module common/workflow.py (Status, WorkflowNode, WorkflowGraph)
is not part of the sources at hand; its operations are modelled from the spec
(sections 3 and 4.1) and each such definition is marked "Modelled from the spec".
All other definitions are translated directly from orchestrator.py; line numbers
in doc comments refer to that file.

External collaborators (the LLM classifier, the summarizer, the agent transport)
are taken as oracle parameters, matching the spec's scope section which excludes
them from the core.
-/

deriving instance DecidableEq for Except

namespace Abi

/-- Python-level failure modes surfaced by the embedded code. `valueError` is
the orchestrator's own input-validation raise; `attributeError` models reading
an attribute a Python object does not define; `keyError` models indexing a dict
with a missing key; `unknownNode` and `invalidState` are the TaskGraph error
taxonomy of spec sections 4.1 and 7. -/
inductive PyError where
  | valueError (msg : String)
  | attributeError (attr : String)
  | keyError (key : String)
  | unknownNode
  | invalidState
  deriving DecidableEq, Repr

/-- Modelled from the spec: the TaskGraph lifecycle state
(section 3: NOT_STARTED, RUNNING, PAUSED, COMPLETED). -/
inductive Status where
  | NOT_STARTED
  | RUNNING
  | PAUSED
  | COMPLETED
  deriving DecidableEq, Repr

/-- The per-node attribute map kept by the graph: task_id, context_id and the
last-seen query (spec section 3, TaskNode.attributes; populated by
set_node_attributes, orchestrator.py lines 143-155). A `none` field means the
key is absent from the map. -/
structure AttrVal where
  task_id : Option String
  context_id : Option String
  query : Option String
  deriving DecidableEq, Repr

/-- The empty attribute map a node starts with. -/
def AttrVal.empty : AttrVal := ⟨none, none, none⟩

/-- Merge of one attribute key: a key present in the update overrides,
an absent key keeps the old value. -/
def mergeField : Option String → Option String → Option String
  | old, none => old
  | _, some v => some v

/-- Modelled from the spec: set_attributes "merges keys into the node's
attribute map" (section 4.1). -/
def AttrVal.merge (old new : AttrVal) : AttrVal :=
  ⟨mergeField old.task_id new.task_id,
   mergeField old.context_id new.context_id,
   mergeField old.query new.query⟩

/-- Modelled from the spec: a TaskNode (section 3) — an id assigned at creation
(the source uses uuid strings, modelled as Nat drawn from a counter that is
never reset, so ids are never reused), the natural-language instruction
(the source constructor argument `task`), the creation-time key and label tags,
and the mutable attribute map. -/
structure WorkflowNode where
  id : Nat
  task : String
  node_key : Option String
  node_label : Option String
  attributes : AttrVal
  deriving DecidableEq, Repr

/-- Modelled from the spec: the TaskGraph (section 3) — nodes, directed
provenance edges, lifecycle state, and the paused-at pointer
(`paused_node_id`, "set when state == PAUSED"). -/
structure WorkflowGraph where
  nodes : List WorkflowNode
  edges : List (Nat × Nat)
  state : Status
  paused_node_id : Option Nat
  deriving DecidableEq, Repr

/-- A freshly constructed WorkflowGraph (orchestrator.py line 193). -/
def WorkflowGraph.empty : WorkflowGraph := ⟨[], [], Status.NOT_STARTED, none⟩

/-- Membership of a node id in a node list. -/
def listHasNode (ns : List WorkflowNode) (i : Nat) : Bool :=
  ns.any (fun n => n.id == i)

/-- Membership of a node id in the graph. -/
def WorkflowGraph.hasNode (g : WorkflowGraph) (i : Nat) : Bool :=
  listHasNode g.nodes i

/-- Modelled from the spec: add_node "appends a node; fails with
InvalidStateError if called with a duplicate id" (section 4.1). -/
def WorkflowGraph.add_node (g : WorkflowGraph) (n : WorkflowNode) :
    Except PyError WorkflowGraph :=
  if g.hasNode n.id then .error .invalidState
  else .ok { g with nodes := g.nodes ++ [n] }

/-- Modelled from the spec: add_edge "records provenance; fails with
UnknownNodeError if either id is absent" (section 4.1). -/
def WorkflowGraph.add_edge (g : WorkflowGraph) (a b : Nat) :
    Except PyError WorkflowGraph :=
  if g.hasNode a && g.hasNode b then .ok { g with edges := g.edges ++ [(a, b)] }
  else .error .unknownNode

/-- The attribute update applied to one node when the graph merges an
attribute map into the node with the given id. -/
def updAttr (i : Nat) (av : AttrVal) (n : WorkflowNode) : WorkflowNode :=
  if n.id = i then { n with attributes := n.attributes.merge av } else n

/-- Modelled from the spec: set_attributes "merges keys into the node's
attribute map; unknown node id fails with UnknownNodeError" (section 4.1).
The orchestrator sometimes passes the id value None through; None is not the
id of any node, hence the unknown-node failure of the spec's contract. -/
def WorkflowGraph.set_node_attributes (g : WorkflowGraph) (node_id : Option Nat)
    (av : AttrVal) : Except PyError WorkflowGraph :=
  match node_id with
  | none => .error .unknownNode
  | some i =>
      if g.hasNode i then .ok { g with nodes := g.nodes.map (updAttr i av) }
      else .error .unknownNode

/-- Modelled from the spec: the TaskGraph object exposes the attribute
`paused_node_id` (section 3). A Python attribute read with any name the object
does not define raises AttributeError; this function is how the embedded
orchestrator reads an Option-valued node pointer off the graph, keeping the
attribute NAME it uses visible (orchestrator.py reads `pused_node_id` at line
203 and `paused_node_id` at lines 243 and 298). -/
def WorkflowGraph.readPausedAttr (g : WorkflowGraph) (name : String) :
    Except PyError (Option Nat) :=
  if name = "paused_node_id" then .ok g.paused_node_id
  else .error (.attributeError name)

/-- One artifact payload entry of a planner plan: the source reads
task_data with key description for each element of the task list
(orchestrator.py line 268). -/
structure TaskEntry where
  description : String
  deriving DecidableEq, Repr

/-- The decoded dict artifact.parts[0].root.data of a protocol artifact event.
A `none` field models the KEY being absent from the dict: the code probes
membership of data_info (line 258) and indexes the task key without a guard
(line 261). The data_info payload itself is consumed opaquely (assigned to
query_context), so it is carried as a String. -/
structure ArtifactData where
  data_info : Option String
  task : Option (List TaskEntry)
  deriving DecidableEq, Repr

/-- A named artifact from a TaskArtifactUpdateEvent (a2a protocol):
its name and its decoded payload. -/
structure Artifact where
  name : String
  data : ArtifactData
  deriving DecidableEq, Repr

/-- The cross-call state the orchestrator instance holds (orchestrator.py
lines 40-44): the tracked graph (None before the first build and after a
reset), accumulated artifact results, the shared query_context extracted from
a plan artifact, the query history, and the tracked context id. next_node_id
is the fresh-id supply standing in for uuid generation at WorkflowNode
construction; it is never decremented, so node ids are never reused. -/
structure OrchState where
  graph : Option WorkflowGraph
  results : List Artifact
  query_context : Option String
  query_history : List String
  context_id : Option String
  next_node_id : Nat
  deriving DecidableEq, Repr

/-- clear_state (orchestrator.py lines 175-179): drop the graph and clear
results, query_context and query_history. The tracked context_id and the id
supply are untouched. -/
def OrchState.clear_state (st : OrchState) : OrchState :=
  { st with graph := none, results := [], query_context := none,
            query_history := [] }

/-- Python string truthiness used by set_node_attributes (lines 148-153):
a keyword argument is packed into attr_val only when it is neither None nor
the empty string. -/
def truthy : Option String → Option String
  | some s => if s = "" then none else some s
  | none => none

/-- set_node_attributes (orchestrator.py lines 143-155): pack the truthy
arguments into attr_val and merge them into the node on the graph. Reading
self.graph when it is None raises AttributeError; an unknown node id fails
with UnknownNodeError per the spec-modelled graph contract. The state-so-far
is returned alongside the outcome since failures leave earlier in-place
mutations in force. -/
def OrchState.set_node_attributes (st : OrchState) (node_id : Option Nat)
    (task_id context_id query : Option String) :
    OrchState × Except PyError Unit :=
  let attr_val : AttrVal := ⟨truthy task_id, truthy context_id, truthy query⟩
  match st.graph with
  | none => (st, .error (.attributeError "set_node_attributes"))
  | some g =>
      match g.set_node_attributes node_id attr_val with
      | .error e => (st, .error e)
      | .ok g' => ({ st with graph := some g' }, .ok ())

/-- add_graph_node (orchestrator.py lines 157-173): construct a WorkflowNode
carrying the query as its instruction (consuming a fresh id), add it to the
graph, add a provenance edge from node_id to it ONLY when node_id is provided
(the `if node_id:` guard at line 169), then stamp task_id, context_id and
query onto its attributes. Each successful graph operation is visible in the
state immediately, as the source mutates self.graph in place. -/
def OrchState.add_graph_node (st : OrchState) (task_id context_id query : String)
    (node_id : Option Nat) (node_key node_label : Option String) :
    OrchState × Except PyError WorkflowNode :=
  match st.graph with
  | none => (st, .error (.attributeError "add_node"))
  | some g =>
      let node : WorkflowNode :=
        ⟨st.next_node_id, query, node_key, node_label, AttrVal.empty⟩
      let st := { st with next_node_id := st.next_node_id + 1 }
      match g.add_node node with
      | .error e => (st, .error e)
      | .ok g1 =>
          let st := { st with graph := some g1 }
          match (match node_id with
                 | some nid => g1.add_edge nid node.id
                 | none => .ok g1) with
          | .error e => (st, .error e)
          | .ok g2 =>
              let st := { st with graph := some g2 }
              match st.set_node_attributes (some node.id)
                      (some task_id) (some context_id) (some query) with
              | (st', .error e) => (st', .error e)
              | (st', .ok _) => (st', .ok node)

/-- A flow descriptor returned by the router (orchestrator.py lines 50-66):
a dict with a flow kind plus kind-specific extra parameters. Absent fields
model keys absent from the dict the source builds. -/
structure SemTask where
  op : String
  top_k : Nat
  deriving DecidableEq, Repr

/-- The tool_request parameters of the planner_tool flow descriptor
(orchestrator.py lines 60-63). -/
structure ToolRequest where
  tool : String
  policy : String
  deriving DecidableEq, Repr

/-- A router result (orchestrator.py lines 50-66): flow kind plus the extra
keys the source puts in each dict (`next`, `task`, `tool_request`). -/
structure FlowDescriptor where
  flow : String
  next : Option String
  task : Option SemTask
  tool_request : Option ToolRequest
  deriving DecidableEq, Repr

/-- The router `_router_from_qa` (orchestrator.py lines 50-66): maps a
classification label to a flow descriptor, with a default dict returned for
any label outside the three recognized ones. -/
def router_from_qa (class_type : String) : FlowDescriptor :=
  if class_type = "methodology" then
    ⟨"orchestrator_answer", some "fill_analysis_approach_defaults", none, none⟩
  else if class_type = "static_knowledge" then
    ⟨"worker_semantic", none, some ⟨"semantic_summarize", 8⟩, none⟩
  else if class_type = "time_sensitive" then
    ⟨"planner_tool", none, none, some ⟨"web.search", "default"⟩⟩
  else
    ⟨"orchestrator_answer", some "fill_analysis_approach_defaults", none, none⟩

/-- The default dict the router returns for an unrecognized label
(orchestrator.py lines 65-66); its flow is labelled "Direct Answer" by
get_node_label, the spec's direct-answer flow. -/
def directAnswerFlow : FlowDescriptor :=
  ⟨"orchestrator_answer", some "fill_analysis_approach_defaults", none, none⟩

/-- `_get_node_label` (orchestrator.py lines 105-112): human-readable label
for a flow kind, defaulting to "Unknown Flow". -/
def get_node_label (flow_type : String) : String :=
  if flow_type = "orchestrator_answer" then "Direct Answer"
  else if flow_type = "worker_semantic" then "Semantic Search"
  else if flow_type = "planner_tool" then "External Tool"
  else "Unknown Flow"

/-- `_build_query_for_flow` (orchestrator.py lines 88-103): phrase the
sub-query sent for a routed flow; the worker_semantic branch defaults top_k
to 8 when the task dict or its top_k key is absent, the planner_tool branch
defaults the tool to web.search. -/
def build_query_for_flow (route : FlowDescriptor) (question : String) : String :=
  if route.flow = "orchestrator_answer" then
    "Answer using methodology approach: " ++ question
  else if route.flow = "worker_semantic" then
    let top_k := (route.task.map SemTask.top_k).getD 8
    "semantic_search: " ++ question ++ " top_k=" ++ toString top_k
  else if route.flow = "planner_tool" then
    let tool := (route.tool_request.map ToolRequest.tool).getD "web.search"
    "execute_tool: " ++ tool ++ " query=" ++ question
  else
    "process: " ++ question

/-- `_execute_flow_as_node` (orchestrator.py lines 68-86): build the flow
query, append a dynamic node to the workflow with node_id None — the source
comment says it will be connected automatically, but add_graph_node only adds
an edge when node_id is provided — node_key the empty string and the flow's
label, and return the dynamic node's id. The local resume_workflow assignment
at line 84 is dead and omitted. -/
def OrchState.execute_flow_as_node (st : OrchState) (route : FlowDescriptor)
    (question task_id context_id : String) : OrchState × Except PyError Nat :=
  let query := build_query_for_flow route question
  match st.add_graph_node task_id context_id query none (some "")
          (some (get_node_label route.flow)) with
  | (st', .ok node) => (st', .ok node.id)
  | (st', .error e) => (st', .error e)

/-- Modelled from the spec: the validated output of the external classifier
carries a classification label (spec sections 4.3 and 6, classify
of text giving a label). The source's pydantic response model QAResult
(agent/models/outputs_model.py) is not among the sources at hand; its class
field is modelled as `label`. -/
structure QAResult where
  label : String
  deriving DecidableEq, Repr

/-- The classifier prompt ORCHESTRATOR_QA_COT_PLANNER with its query
placeholder replaced by the question (orchestrator.py line 124). The template
text lives in common/prompts outside the core; the spec excludes LLM prompt
content, so the template is abstracted to a fixed prefix with the question
substituted in. -/
def plannerPrompt (question : String) : String :=
  "ORCHESTRATOR_QA_COT_PLANNER " ++ question

/-- The decoded JSON answer returned by answer_planner_question
(orchestrator.py lines 133-137 and 141): the can_answer verdict, the answer
text, and the dynamic node id present only in the yes-shape. Both JSON shapes
the source emits are well-formed and always carry can_answer and answer, so
the json.loads round-trip in stream is lossless and the decoded record is
used directly. -/
structure PlannerAnswer where
  can_answer : String
  answer : String
  node_id : Option Nat
  deriving DecidableEq, Repr

/-- The fallback answer literal of orchestrator.py line 141. -/
def noAnswer : PlannerAnswer :=
  ⟨"no", "Cannot answer based on provided context", none⟩

/-- The success answer built at orchestrator.py lines 133-137. -/
def yesAnswer (route : FlowDescriptor) (nid : Nat) : PlannerAnswer :=
  ⟨"yes", "Executing " ++ route.flow ++ " workflow", some nid⟩

/-- answer_planner_question (orchestrator.py lines 122-141). The external LLM
call and the pydantic JSON validation are oracle parameters `invoke` and
`parse` (the spec treats the classifier as an external collaborator). The
try block covers the call, the validation, the routing and the dynamic node
creation; any failure falls through to the fixed cannot-answer literal at
line 141 instead of propagating, keeping whatever in-place mutations already
happened. -/
def answer_planner_question (invoke : String → Except PyError String)
    (parse : String → Except PyError QAResult) (st : OrchState)
    (question context_id task_id : String) : OrchState × PlannerAnswer :=
  match invoke (plannerPrompt question) with
  | .error _ => (st, noAnswer)
  | .ok content =>
      match parse content with
      | .error _ => (st, noAnswer)
      | .ok qa =>
          let route := router_from_qa qa.label
          match st.execute_flow_as_node route question task_id context_id with
          | (st', .ok nid) => (st', yesAnswer route nid)
          | (st', .error _) => (st', noAnswer)

/-- The entry section of stream (orchestrator.py lines 181-204), up to the
determination of start_node_id: validate the query (line 184 raises ValueError
on an empty query, the spec's EmptyQueryError, before anything is touched),
reset all state when the tracked context id differs (lines 186-188), append
the query to the history (line 189), then either build a fresh graph with the
root planner node (lines 192-201), or — when the tracked graph is PAUSED —
read `self.graph.pused_node_id` as written at line 203 and overwrite that
node's query attribute (line 204), or leave start_node_id as the None set at
line 190. A raise returns the state as mutated so far, as in Python. -/
def streamPrologue (st : OrchState) (query context_id task_id : String) :
    OrchState × Except PyError (Option Nat) :=
  if query = "" then (st, .error (.valueError "Please provide a Query"))
  else
    let st := if st.context_id = some context_id then st
              else { st.clear_state with context_id := some context_id }
    let st := { st with query_history := st.query_history ++ [query] }
    match st.graph with
    | none =>
        let st := { st with graph := some WorkflowGraph.empty }
        match st.add_graph_node task_id context_id query none
                (some "planner") (some "Planner") with
        | (st', .error e) => (st', .error e)
        | (st', .ok node) => (st', .ok (some node.id))
    | some g =>
        if g.state = Status.PAUSED then
          match g.readPausedAttr "pused_node_id" with
          | .error e => (st, .error e)
          | .ok start_node_id =>
              match st.set_node_attributes start_node_id none none (some query) with
              | (st', .error e) => (st', .error e)
              | (st', .ok _) => (st', .ok start_node_id)
        else (st, .ok none)

/-- The arguments the run loop hands to the graph on entering an iteration
(orchestrator.py lines 206-215): set_node_attributes is called with
node_id = start_node_id (line 208) and run_workflow is called with
start_node_id = start_node_id (line 214). -/
structure LoopGraphCalls where
  stamped_node : Option Nat
  run_start_node : Option Nat
  deriving DecidableEq, Repr

/-- The values passed at orchestrator.py lines 207-215: both graph calls of a
loop iteration receive the current start_node_id unchanged. -/
def streamLoopGraphCalls (start_node_id : Option Nat) : LoopGraphCalls :=
  ⟨start_node_id, start_node_id⟩

/-- The input-required arm of the TaskStatusUpdateEvent branch of stream
(orchestrator.py lines 234-250): the question is the event's first message
part text and context_id the event's context id (lines 224 and 237); inside
a try, answer_planner_question is called and its JSON decoded; on a yes
verdict the loop's query becomes the answer, start_node_id is reassigned to
self.graph.paused_node_id (line 243), that node's query attribute is
overwritten (lines 244-247) and resume_workflow is set (line 248); any
exception inside the try is logged and swallowed (lines 249-250), keeping
the assignments already made. -/
def handleStatusUpdateInputRequired (invoke : String → Except PyError String)
    (parse : String → Except PyError QAResult) (st : OrchState)
    (start_node_id : Option Nat) (resume_workflow : Bool)
    (question event_context_id task_id : String) :
    OrchState × Option Nat × Bool :=
  match answer_planner_question invoke parse st question event_context_id task_id with
  | (st1, answer) =>
      if answer.can_answer = "yes" then
        match st1.graph with
        | none => (st1, start_node_id, resume_workflow)
        | some g =>
            match g.readPausedAttr "paused_node_id" with
            | .error _ => (st1, start_node_id, resume_workflow)
            | .ok start' =>
                match st1.set_node_attributes start' none none (some answer.answer) with
                | (st2, .ok _) => (st2, start', true)
                | (st2, .error _) => (st2, start', resume_workflow)
      else (st1, start_node_id, resume_workflow)

/-- The input-required arm of the terminal Task-snapshot branch of stream
(orchestrator.py lines 283-305): the question is the snapshot's first message
part text (line 287) and context_id the snapshot's context id (line 288); the
unused local `context` assignment at line 289 has no effect and is omitted;
inside a try, answer_planner_question is called and its JSON decoded; on a
yes verdict the loop's query becomes the answer, start_node_id is reassigned
to self.graph.paused_node_id (line 298), that node's query attribute is
overwritten (lines 299-302) and resume_workflow is set (line 303); any
exception inside the try is logged and swallowed (lines 304-305), keeping the
assignments already made. -/
def handleTaskInputRequired (invoke : String → Except PyError String)
    (parse : String → Except PyError QAResult) (st : OrchState)
    (start_node_id : Option Nat) (resume_workflow : Bool)
    (question event_context_id task_id : String) :
    OrchState × Option Nat × Bool :=
  match answer_planner_question invoke parse st question event_context_id task_id with
  | (st1, answer) =>
      if answer.can_answer = "yes" then
        match st1.graph with
        | none => (st1, start_node_id, resume_workflow)
        | some g =>
            match g.readPausedAttr "paused_node_id" with
            | .error _ => (st1, start_node_id, resume_workflow)
            | .ok start' =>
                match st1.set_node_attributes start' none none (some answer.answer) with
                | (st2, .ok _) => (st2, start', true)
                | (st2, .error _) => (st2, start', resume_workflow)
      else (st1, start_node_id, resume_workflow)

/-- The for loop over the plan's task list (orchestrator.py lines 263-275):
for each task entry a node is chained from the previous one via
add_graph_node with node_id = current_node_id, the cursor advances to the new
node, and on the first iteration resume_workflow is set and start_node_id is
moved to that first new node. The trailing Bool of the outcome reports
whether the Python `continue` was executed for this event (false here: after
expansion the code falls through to the yield check at line 306). -/
def expandTasks (st : OrchState) (task_id context_id : String)
    (current : Option Nat) (start : Option Nat) (resume : Bool) (idx : Nat) :
    List TaskEntry → OrchState × Except PyError (Option Nat × Bool × Bool)
  | [] => (st, .ok (start, resume, false))
  | t :: rest =>
      match st.add_graph_node task_id context_id t.description current none none with
      | (st', .error e) => (st', .error e)
      | (st', .ok node) =>
          let start' := if idx = 0 then some node.id else start
          let resume' := if idx = 0 then true else resume
          expandTasks st' task_id context_id (some node.id) start' resume' (idx + 1) rest

/-- The TaskArtifactUpdateEvent branch of stream (orchestrator.py lines
253-282): the artifact is appended to results (line 255); a PlannerAgent
result whose data carries data_info has that payload merged into
query_context (line 259), after which the log call at line 261 indexes
artifact_data with the key task unguarded — a KeyError when the key is absent
— and the task list is expanded into chained nodes (lines 263-275); a
PlannerAgent result without data_info falls through to the yield check; any
other artifact hits the `continue` at line 282 (trailing Bool true). The
outcome carries (start_node_id, resume_workflow, continue-executed). -/
def handleArtifactEvent (st : OrchState) (start_node_id : Option Nat)
    (resume_workflow : Bool) (artifact : Artifact) (task_id context_id : String) :
    OrchState × Except PyError (Option Nat × Bool × Bool) :=
  let st := { st with results := st.results ++ [artifact] }
  if artifact.name = "PlannerAgent-result" then
    match artifact.data.data_info with
    | some di =>
        let st := { st with query_context := some di }
        match artifact.data.task with
        | none => (st, .error (.keyError "task"))
        | some tasks =>
            expandTasks st task_id context_id start_node_id start_node_id
              resume_workflow 0 tasks
    | none => (st, .ok (start_node_id, resume_workflow, false))
  else
    (st, .ok (start_node_id, resume_workflow, true))

/-- An output event of stream visible to its caller. `summary` is the final
dict yielded at orchestrator.py lines 321-326 (response_type text,
is_task_complete true, require_user_input false, content the summary). -/
inductive OutputEvent where
  | summary (content : String)
  deriving DecidableEq, Repr

/-- The section of stream after the run loop (orchestrator.py lines 316-326):
when the graph state is COMPLETED, the summarizer — an external LLM
collaborator, passed as the oracle `summarize` — is invoked on the
accumulated results (generate_summary, lines 114-120, builds its prompt from
self.results), clear_state drops the graph and the results, and the summary
is yielded as the final output event. Reading state off self.graph when the
graph is None raises AttributeError. -/
def streamEpilogue (summarize : List Artifact → String) (st : OrchState) :
    OrchState × Except PyError (List OutputEvent) :=
  match st.graph with
  | none => (st, .error (.attributeError "state"))
  | some g =>
      if g.state = Status.COMPLETED then
        let summary := summarize st.results
        let st' := st.clear_state
        (st', .ok [.summary summary])
      else (st, .ok [])

/-- Node-id membership distributes over appending one node. -/
theorem listHasNode_append (ns : List WorkflowNode) (n : WorkflowNode) (j : Nat) :
    listHasNode (ns ++ [n]) j = (listHasNode ns j || (n.id == j)) := by
  simp [listHasNode]

/-- A node id at or above a strict bound on all ids of a list is not in it. -/
theorem hasNode_false_of_bound (ns : List WorkflowNode) (k j : Nat)
    (h : ∀ n ∈ ns, n.id < k) (hj : k ≤ j) : listHasNode ns j = false := by
  simp only [listHasNode, List.any_eq_false]
  intro n hn
  simp only [beq_iff_eq]
  have := h n hn
  omega

/-- An attribute update targeting an id no listed node has leaves the list
unchanged. -/
theorem map_updAttr_of_ne (ns : List WorkflowNode) (i : Nat) (av : AttrVal)
    (h : ∀ n ∈ ns, n.id ≠ i) : ns.map (updAttr i av) = ns := by
  induction ns with
  | nil => rfl
  | cons a t ih =>
      simp only [List.map_cons]
      rw [updAttr, if_neg (h a (by simp)), ih (fun n hn => h n (by simp [hn]))]

/-- Unfolded behavior of add_graph_node when a predecessor node id is passed:
under a fresh id supply (every existing id below the counter) and an existing
predecessor, it appends one node carrying the query as instruction, appends
the one provenance edge, stamps the attributes, and bumps the counter. -/
theorem add_graph_node_spec (st : OrchState) (g : WorkflowGraph) (c : Nat)
    (task_id context_id query : String) (nk nl : Option String)
    (hg : st.graph = some g)
    (hb : ∀ n ∈ g.nodes, n.id < st.next_node_id)
    (hc : g.hasNode c = true) :
    st.add_graph_node task_id context_id query (some c) nk nl =
      ({ st with
          graph := some { g with
            nodes := g.nodes ++
              [⟨st.next_node_id, query, nk, nl,
                AttrVal.empty.merge
                  ⟨truthy (some task_id), truthy (some context_id),
                   truthy (some query)⟩⟩],
            edges := g.edges ++ [(c, st.next_node_id)] },
          next_node_id := st.next_node_id + 1 },
       .ok ⟨st.next_node_id, query, nk, nl, AttrVal.empty⟩) := by
  have hN : listHasNode g.nodes st.next_node_id = false :=
    hasNode_false_of_bound g.nodes st.next_node_id st.next_node_id hb (le_refl _)
  have hNe : ∀ n ∈ g.nodes, n.id ≠ st.next_node_id := by
    intro n hn
    have := hb n hn
    omega
  have hc' : listHasNode g.nodes c = true := hc
  have hupd : updAttr st.next_node_id
      ⟨truthy (some task_id), truthy (some context_id), truthy (some query)⟩
      ⟨st.next_node_id, query, nk, nl, AttrVal.empty⟩
      = ⟨st.next_node_id, query, nk, nl,
         AttrVal.empty.merge
           ⟨truthy (some task_id), truthy (some context_id),
            truthy (some query)⟩⟩ := by
    simp [updAttr]
  unfold OrchState.add_graph_node
  rw [hg]
  simp [WorkflowGraph.add_node, WorkflowGraph.hasNode, WorkflowGraph.add_edge,
    OrchState.set_node_attributes, WorkflowGraph.set_node_attributes,
    listHasNode_append, hc', hN, hupd,
    map_updAttr_of_ne g.nodes st.next_node_id _ hNe]

/-- Unfolded behavior of the stream prologue on a context with no graph yet:
a fresh graph is built holding exactly the root planner node, whose
instruction is the query, and the root's id is the start node. -/
theorem fresh_root_spec (st : OrchState) (q ctx tid : String)
    (hq : ¬ q = "") (hctx : st.context_id = some ctx) (hg : st.graph = none) :
    streamPrologue st q ctx tid =
      ({ st with
          query_history := st.query_history ++ [q],
          graph := some ⟨[⟨st.next_node_id, q, some "planner", some "Planner",
            AttrVal.empty.merge
              ⟨truthy (some tid), truthy (some ctx), truthy (some q)⟩⟩],
            [], Status.NOT_STARTED, none⟩,
          next_node_id := st.next_node_id + 1 },
       .ok (some st.next_node_id)) := by
  unfold streamPrologue
  rw [if_neg hq, if_pos hctx]
  simp only [hg]
  unfold OrchState.add_graph_node
  simp only [WorkflowGraph.empty, WorkflowGraph.add_node, WorkflowGraph.hasNode,
    listHasNode, List.any_nil, Bool.false_eq_true, if_false,
    OrchState.set_node_attributes, WorkflowGraph.set_node_attributes,
    List.nil_append, List.any_cons, beq_self_eq_true, Bool.or_self,
    Bool.true_or, Bool.or_true, if_true, List.map_cons, List.map_nil,
    updAttr, if_pos rfl]

/-- The orchestrator state as constructed at startup (orchestrator.py lines
40-44): no graph, no results, no tracked context, fresh id supply. -/
def initState : OrchState := ⟨none, [], none, [], none, 0⟩

/-- An oracle for the classifier LLM call that returns some raw content. -/
def okInvoke : String → Except PyError String := fun _ => .ok "raw classifier output"

/-- An oracle for the classifier LLM call that fails, as when the model
endpoint is unreachable. -/
def failInvoke : String → Except PyError String :=
  fun _ => .error (.valueError "llm unavailable")

/-- A validation oracle that accepts the classifier output as the label
methodology. -/
def methodologyParse : String → Except PyError QAResult :=
  fun _ => .ok ⟨"methodology"⟩

/-- A concrete context whose graph was built for a first query and is now
PAUSED at its root node 0, as the workflow module leaves it when the remote
agent asked for input and the clarification could not be resolved. -/
def pausedScenario : OrchState :=
  let st1 := (streamPrologue initState "plan a trip" "ctx0" "t0").1
  let g' := st1.graph.map
    (fun g => { g with state := Status.PAUSED, paused_node_id := some 0 })
  { st1 with graph := g' }

/-- A concrete context whose graph was built for a first query and was left
RUNNING, the abandoned-mid-stream situation of the spec's section 9 open
question. -/
def runningScenario : OrchState :=
  let st1 := (streamPrologue initState "plan a trip" "ctx0" "t0").1
  { st1 with graph := st1.graph.map (fun g => { g with state := Status.RUNNING }) }

/-- C8: for every call to stream with an empty query, the call fails
immediately with the input-validation error (raise ValueError at
orchestrator.py lines 184-185, the spec's EmptyQueryError), and the returned
state is exactly the input state — no history, graph or results were
touched. -/
theorem empty_query_fails_before_any_state (st : OrchState) (ctx tid : String) :
    streamPrologue st "" ctx tid
      = (st, .error (.valueError "Please provide a Query")) := by
  simp [streamPrologue]

/-- C9: the router is a pure total function of the classification label —
determinism and freedom from side effects are by construction, it being a
plain function of its argument into flow-descriptor values — and every label
outside the three recognized ones maps to the default fallback descriptor,
whose flow is labelled "Direct Answer" by get_node_label: the spec's
direct-answer flow. -/
theorem router_total_with_default_fallback (l : String)
    (h1 : l ≠ "methodology") (h2 : l ≠ "static_knowledge")
    (h3 : l ≠ "time_sensitive") :
    router_from_qa l = directAnswerFlow
    ∧ get_node_label directAnswerFlow.flow = "Direct Answer"
    ∧ (∀ l' : String, l' = l → router_from_qa l' = router_from_qa l) := by
  refine ⟨?_, rfl, fun l' hl => by rw [hl]⟩
  simp [router_from_qa, directAnswerFlow, h1, h2, h3]

/-- Witness for C9 at the concrete unrecognized label "general_chat". -/
theorem router_total_with_default_fallback_witness :
    router_from_qa "general_chat" = directAnswerFlow
    ∧ get_node_label directAnswerFlow.flow = "Direct Answer"
    ∧ (∀ l' : String, l' = "general_chat" →
        router_from_qa l' = router_from_qa "general_chat") :=
  router_total_with_default_fallback "general_chat"
    (by decide) (by decide) (by decide)

/-- C1: resuming a PAUSED graph does not resume at the paused node — the
code at orchestrator.py line 203 reads the attribute pused_node_id, which the
graph does not define (the spec and lines 243 and 298 of the same file spell
it paused_node_id), so the call raises AttributeError out of stream and the
graph is left untouched: evaluated here on a concrete context paused at node
0 with the answer "EMEA" arriving. -/
theorem resume_reads_misspelled_attribute :
    (streamPrologue pausedScenario "EMEA" "ctx0" "t1").2
      = .error (.attributeError "pused_node_id")
    ∧ (streamPrologue pausedScenario "EMEA" "ctx0" "t1").1.graph
      = pausedScenario.graph := by
  decide

/-- C2: the incremental TaskStatusUpdateEvent shape and the terminal Task
snapshot shape of an input_required condition are handled by extensionally
equal logic: for every oracle pair, orchestrator state, loop cursor, resume
flag, question, event context id and task id, the two handlers produce the
same state, the same new start node and the same resume flag. -/
theorem input_required_shapes_handled_identically
    (invoke : String → Except PyError String)
    (parse : String → Except PyError QAResult) (st : OrchState)
    (start_node_id : Option Nat) (resume_workflow : Bool)
    (question event_context_id task_id : String) :
    handleStatusUpdateInputRequired invoke parse st start_node_id
        resume_workflow question event_context_id task_id
      = handleTaskInputRequired invoke parse st start_node_id
        resume_workflow question event_context_id task_id := rfl

/-- C5: a PlannerAgent-result artifact whose payload carries data_info but no
task list makes stream raise KeyError instead of being skipped: the log call
at orchestrator.py line 261 indexes artifact_data with the key task before
any guard. The companion case — data_info itself missing — is skipped without
error, as the claim states. Evaluated on a concrete single-node context. -/
theorem plan_artifact_missing_task_raises :
    (handleArtifactEvent (streamPrologue initState "plan a trip" "ctx0" "t0").1
        (some 0) false ⟨"PlannerAgent-result", ⟨some "payload", none⟩⟩
        "t0" "ctx0").2
      = .error (.keyError "task")
    ∧ (handleArtifactEvent (streamPrologue initState "plan a trip" "ctx0" "t0").1
        (some 0) false ⟨"PlannerAgent-result", ⟨none, none⟩⟩
        "t0" "ctx0").2
      = .ok (some 0, false, false) := by
  decide

/-- C3: dynamic node creation during clarification resolution violates the
every-non-root-node-has-an-incoming-edge invariant: _execute_flow_as_node
passes node_id None to add_graph_node (orchestrator.py line 80, despite its
comment that the node will be connected automatically), and add_graph_node
only adds an edge when a node id is provided, so the dynamic node is left
with no incoming edge. Evaluated concretely: after the root planner node 0,
resolving the question "Which region?" (classified methodology) creates
non-root node 1 while the edge list stays empty. -/
theorem dynamic_node_has_no_incoming_edge :
    ((answer_planner_question okInvoke methodologyParse
        (streamPrologue initState "plan a trip" "ctx0" "t0").1
        "Which region?" "ctx0" "t0").1.graph.map
      (fun g => (g.nodes.map WorkflowNode.id,
                 g.nodes.map WorkflowNode.node_key, g.edges)))
      = some ([0, 1], [some "planner", some ""], []) := by
  decide

/-- C6: the clarification resolver always returns a verdict: for every
oracle behavior and state its result is the yes-shape or the fixed
cannot-answer literal of orchestrator.py line 141, and whenever an internal
step fails — the classifier call, the JSON validation of the classification,
or the dynamic node creation that follows routing (routing itself,
router_from_qa, is a total function) — the returned verdict is can_answer
"no" rather than a propagated exception, so the controller falls back to
suspending. -/
theorem clarification_resolver_never_raises
    (invoke : String → Except PyError String)
    (parse : String → Except PyError QAResult) (st : OrchState)
    (question context_id task_id : String) :
    ((answer_planner_question invoke parse st question context_id task_id).2.can_answer = "yes"
      ∨ (answer_planner_question invoke parse st question context_id task_id).2 = noAnswer)
    ∧ (∀ e, invoke (plannerPrompt question) = .error e →
        (answer_planner_question invoke parse st question context_id task_id).2 = noAnswer)
    ∧ (∀ content e, invoke (plannerPrompt question) = .ok content →
        parse content = .error e →
        (answer_planner_question invoke parse st question context_id task_id).2 = noAnswer)
    ∧ (∀ content qa e, invoke (plannerPrompt question) = .ok content →
        parse content = .ok qa →
        (st.execute_flow_as_node (router_from_qa qa.label) question task_id
          context_id).2 = .error e →
        (answer_planner_question invoke parse st question context_id task_id).2
          = noAnswer) := by
  refine ⟨?_, ?_, ?_, ?_⟩
  · cases hi : invoke (plannerPrompt question) with
    | error e => exact Or.inr (by simp [answer_planner_question, hi])
    | ok content =>
        cases hp : parse content with
        | error e => exact Or.inr (by simp [answer_planner_question, hi, hp])
        | ok qa =>
            cases hx : st.execute_flow_as_node (router_from_qa qa.label)
                question task_id context_id with
            | mk st' r =>
                cases r with
                | error e =>
                    exact Or.inr (by simp [answer_planner_question, hi, hp, hx])
                | ok nid =>
                    exact Or.inl
                      (by simp [answer_planner_question, hi, hp, hx, yesAnswer])
  · intro e he
    simp [answer_planner_question, he]
  · intro content e hcont hp
    simp [answer_planner_question, hcont, hp]
  · intro content qa e hcont hp hx
    cases hfull : st.execute_flow_as_node (router_from_qa qa.label) question
        task_id context_id with
    | mk st' r =>
        rw [hfull] at hx
        simp only at hx
        subst hx
        simp [answer_planner_question, hcont, hp, hfull]

/-- Witness for C6: with a failing classifier endpoint, the resolver returns
the cannot-answer verdict on the concrete paused context. -/
theorem clarification_resolver_never_raises_witness :
    (answer_planner_question failInvoke methodologyParse pausedScenario
      "Which region?" "ctx0" "t0").2 = noAnswer :=
  (clarification_resolver_never_raises failInvoke methodologyParse
    pausedScenario "Which region?" "ctx0" "t0").2.1
    (.valueError "llm unavailable") rfl

/-- C10: when a call arrives for the tracked context while a graph exists in
a non-PAUSED state (for example left RUNNING by an abandoned earlier call),
the prologue leaves start_node_id as the None initialized at line 190: no
state reset happens, no new root is created, no recorded node is resumed —
only the query is appended to the history — and the loop entry then passes
that None through as both the node id stamped by set_node_attributes (line
208) and the start node of run_workflow (line 214). -/
theorem abandoned_running_graph_proceeds_with_start_none
    (st : OrchState) (g : WorkflowGraph) (q ctx tid : String)
    (hq : ¬ q = "") (hctx : st.context_id = some ctx)
    (hg : st.graph = some g) (hs : ¬ g.state = Status.PAUSED) :
    streamPrologue st q ctx tid
        = ({ st with query_history := st.query_history ++ [q] }, .ok none)
    ∧ streamLoopGraphCalls none = ⟨none, none⟩ := by
  refine ⟨?_, rfl⟩
  unfold streamPrologue
  rw [if_neg hq, if_pos hctx]
  simp only [hg, if_neg hs]

/-- Witness for C10 on the concrete RUNNING context. -/
theorem abandoned_running_graph_proceeds_with_start_none_witness :
    streamPrologue runningScenario "EMEA" "ctx0" "t1"
        = ({ runningScenario with
              query_history := runningScenario.query_history ++ ["EMEA"] },
           .ok none)
    ∧ streamLoopGraphCalls none = ⟨none, none⟩ :=
  abandoned_running_graph_proceeds_with_start_none runningScenario
    ⟨[⟨0, "plan a trip", some "planner", some "Planner",
        ⟨some "t0", some "ctx0", some "plan a trip"⟩⟩],
      [], Status.RUNNING, none⟩
    "EMEA" "ctx0" "t1" (by decide) (by decide) (by decide) (by decide)

/-- C7: when the graph has reached COMPLETED after the run loop, the
epilogue invokes the summarizer on the accumulated results, yields exactly
the summary as the final output event, and clears the state (graph dropped,
results emptied, context id kept), so that the next call with the same
context id builds a fresh graph holding exactly one new root node keyed
planner whose instruction is the new query. -/
theorem completion_clears_state_and_next_call_builds_fresh_root
    (summarize : List Artifact → String) (st : OrchState) (g : WorkflowGraph)
    (ctx q tid : String)
    (hg : st.graph = some g) (hco : g.state = Status.COMPLETED)
    (hctx : st.context_id = some ctx) (hq : ¬ q = "") :
    streamEpilogue summarize st
        = (st.clear_state, .ok [.summary (summarize st.results)])
    ∧ st.clear_state.graph = none
    ∧ st.clear_state.results = []
    ∧ streamPrologue st.clear_state q ctx tid
        = ({ st.clear_state with
              query_history := [q],
              graph := some ⟨[⟨st.next_node_id, q, some "planner", some "Planner",
                AttrVal.empty.merge
                  ⟨truthy (some tid), truthy (some ctx), truthy (some q)⟩⟩],
                [], Status.NOT_STARTED, none⟩,
              next_node_id := st.next_node_id + 1 },
           .ok (some st.next_node_id)) := by
  refine ⟨?_, rfl, rfl, ?_⟩
  · unfold streamEpilogue
    rw [hg]
    simp [hco]
  · have h := fresh_root_spec st.clear_state q ctx tid hq hctx rfl
    simpa using h

/-- One iteration of the plan-expansion loop, expressed against the outcome
of its add_graph_node call. -/
theorem expandTasks_cons (st st' : OrchState) (tid ctx : String)
    (cur start : Option Nat) (resume : Bool) (idx : Nat) (t : TaskEntry)
    (rest : List TaskEntry) (nid : Nat) (tk : String) (nk nl : Option String)
    (av : AttrVal)
    (h : st.add_graph_node tid ctx t.description cur none none
          = (st', .ok ⟨nid, tk, nk, nl, av⟩)) :
    expandTasks st tid ctx cur start resume idx (t :: rest)
      = expandTasks st' tid ctx (some nid)
          (if idx = 0 then some nid else start)
          (if idx = 0 then true else resume) (idx + 1) rest := by
  conv_lhs => rw [expandTasks]
  rw [h]

/-- A concrete context whose graph reached COMPLETED with one accumulated
result artifact. -/
def completedScenario : OrchState :=
  let st1 := (streamPrologue initState "plan a trip" "ctx0" "t0").1
  let g' := st1.graph.map (fun g => { g with state := Status.COMPLETED })
  { st1 with graph := g', results := [⟨"WorkerAgent-result", ⟨none, none⟩⟩] }

/-- The graph completedScenario holds: the root planner node 0, COMPLETED. -/
def completedGraph : WorkflowGraph :=
  ⟨[⟨0, "plan a trip", some "planner", some "Planner",
      ⟨some "t0", some "ctx0", some "plan a trip"⟩⟩],
   [], Status.COMPLETED, none⟩

/-- A summarizer oracle producing a fixed summary text. -/
def constSummarize : List Artifact → String := fun _ => "final summary"

/-- Witness for C7 on the concrete completed context: the summary is the
final output event, the state is cleared, and the next call for the same
context builds a fresh root planner node. -/
theorem completion_clears_state_witness :
    streamEpilogue constSummarize completedScenario
        = (completedScenario.clear_state,
           .ok [.summary (constSummarize completedScenario.results)])
    ∧ completedScenario.clear_state.graph = none
    ∧ completedScenario.clear_state.results = []
    ∧ streamPrologue completedScenario.clear_state "next question" "ctx0" "t9"
        = ({ completedScenario.clear_state with
              query_history := ["next question"],
              graph := some ⟨[⟨completedScenario.next_node_id, "next question",
                some "planner", some "Planner",
                AttrVal.empty.merge
                  ⟨truthy (some "t9"), truthy (some "ctx0"),
                   truthy (some "next question")⟩⟩],
                [], Status.NOT_STARTED, none⟩,
              next_node_id := completedScenario.next_node_id + 1 },
           .ok (some completedScenario.next_node_id)) :=
  completion_clears_state_and_next_call_builds_fresh_root constSummarize
    completedScenario completedGraph "ctx0" "next question" "t9"
    (by decide) rfl rfl (by decide)

/-- The node add_graph_node leaves in the graph for a plan sub-task: fresh id
i, the task description d as instruction, no key or label (the expansion loop
passes neither), and the stamped attributes. -/
def taskNodeAt (i : Nat) (d tid ctx : String) : WorkflowNode :=
  ⟨i, d, none, none,
   AttrVal.empty.merge ⟨truthy (some tid), truthy (some ctx), truthy (some d)⟩⟩

/-- C4: a well-formed plan artifact (name PlannerAgent-result, payload with
data_info and the task list) carrying sub-tasks t1, t2, t3 makes the
controller append exactly three chained nodes whose instructions are the
three descriptions in order, with provenance edges current-node to t1, t1 to
t2, t2 to t3 appended in exactly that order, move start_node_id to the t1
node, and set resume_workflow (with the continue-flag clear, the set resume
flag suppresses the yield at line 306 and the loop re-invokes t1 without
yielding control to the caller). -/
theorem plan_expansion_chains_tasks_in_order
    (st : OrchState) (g : WorkflowGraph) (c : Nat) (t1 t2 t3 : TaskEntry)
    (di : String) (resume : Bool) (tid ctx : String) (art : Artifact)
    (hg : st.graph = some g)
    (hb : ∀ n ∈ g.nodes, n.id < st.next_node_id)
    (hc : g.hasNode c = true)
    (hname : art.name = "PlannerAgent-result")
    (hdi : art.data.data_info = some di)
    (htask : art.data.task = some [t1, t2, t3]) :
    ∃ g' : WorkflowGraph,
      handleArtifactEvent st (some c) resume art tid ctx
        = ({ st with
              graph := some g',
              results := st.results ++ [art],
              query_context := some di,
              next_node_id := st.next_node_id + 3 },
           .ok (some st.next_node_id, true, false))
      ∧ g'.edges = g.edges ++
          [(c, st.next_node_id), (st.next_node_id, st.next_node_id + 1),
           (st.next_node_id + 1, st.next_node_id + 2)]
      ∧ g'.nodes.map WorkflowNode.task
          = g.nodes.map WorkflowNode.task
            ++ [t1.description, t2.description, t3.description]
      ∧ g'.nodes.map WorkflowNode.id
          = g.nodes.map WorkflowNode.id
            ++ [st.next_node_id, st.next_node_id + 1, st.next_node_id + 2]
      ∧ g'.state = g.state := by
  have hrun : handleArtifactEvent st (some c) resume art tid ctx
      = expandTasks
          { st with
            results := st.results ++ [art],
            query_context := some di }
          tid ctx (some c) (some c) resume 0 [t1, t2, t3] := by
    unfold handleArtifactEvent
    rw [hname, hdi, htask]
    simp
  have h1 : OrchState.add_graph_node
      { st with results := st.results ++ [art], query_context := some di }
      tid ctx t1.description (some c) none none
      = ({ st with
            results := st.results ++ [art],
            query_context := some di,
            graph := some { g with
              nodes := g.nodes ++ [taskNodeAt st.next_node_id t1.description tid ctx],
              edges := g.edges ++ [(c, st.next_node_id)] },
            next_node_id := st.next_node_id + 1 },
         .ok ⟨st.next_node_id, t1.description, none, none, AttrVal.empty⟩) :=
    add_graph_node_spec _ g c tid ctx t1.description none none hg hb hc
  have hb1 : ∀ n ∈ g.nodes ++ [taskNodeAt st.next_node_id t1.description tid ctx],
      n.id < st.next_node_id + 1 := by
    intro n hn
    rcases List.mem_append.mp hn with hm | hm
    · have := hb n hm
      omega
    · rw [List.mem_singleton] at hm
      subst hm
      show st.next_node_id < st.next_node_id + 1
      omega
  have hc1 : WorkflowGraph.hasNode
      { g with
        nodes := g.nodes ++ [taskNodeAt st.next_node_id t1.description tid ctx],
        edges := g.edges ++ [(c, st.next_node_id)] } st.next_node_id = true := by
    show listHasNode (g.nodes ++ [taskNodeAt st.next_node_id t1.description tid ctx])
      st.next_node_id = true
    rw [listHasNode_append]
    simp [taskNodeAt]
  have h2 : OrchState.add_graph_node
      { st with
        results := st.results ++ [art],
        query_context := some di,
        graph := some { g with
          nodes := g.nodes ++ [taskNodeAt st.next_node_id t1.description tid ctx],
          edges := g.edges ++ [(c, st.next_node_id)] },
        next_node_id := st.next_node_id + 1 }
      tid ctx t2.description (some st.next_node_id) none none
      = ({ st with
            results := st.results ++ [art],
            query_context := some di,
            graph := some { g with
              nodes := (g.nodes ++ [taskNodeAt st.next_node_id t1.description tid ctx])
                ++ [taskNodeAt (st.next_node_id + 1) t2.description tid ctx],
              edges := (g.edges ++ [(c, st.next_node_id)])
                ++ [(st.next_node_id, st.next_node_id + 1)] },
            next_node_id := st.next_node_id + 2 },
         .ok ⟨st.next_node_id + 1, t2.description, none, none, AttrVal.empty⟩) :=
    add_graph_node_spec _
      { g with
        nodes := g.nodes ++ [taskNodeAt st.next_node_id t1.description tid ctx],
        edges := g.edges ++ [(c, st.next_node_id)] }
      st.next_node_id tid ctx t2.description none none rfl hb1 hc1
  have hb2 : ∀ n ∈ (g.nodes ++ [taskNodeAt st.next_node_id t1.description tid ctx])
      ++ [taskNodeAt (st.next_node_id + 1) t2.description tid ctx],
      n.id < st.next_node_id + 2 := by
    intro n hn
    rcases List.mem_append.mp hn with hm | hm
    · rcases List.mem_append.mp hm with hm1 | hm1
      · have := hb n hm1
        omega
      · rw [List.mem_singleton] at hm1
        subst hm1
        show st.next_node_id < st.next_node_id + 2
        omega
    · rw [List.mem_singleton] at hm
      subst hm
      show st.next_node_id + 1 < st.next_node_id + 2
      omega
  have hc2 : WorkflowGraph.hasNode
      { g with
        nodes := (g.nodes ++ [taskNodeAt st.next_node_id t1.description tid ctx])
          ++ [taskNodeAt (st.next_node_id + 1) t2.description tid ctx],
        edges := (g.edges ++ [(c, st.next_node_id)])
          ++ [(st.next_node_id, st.next_node_id + 1)] }
      (st.next_node_id + 1) = true := by
    show listHasNode
      ((g.nodes ++ [taskNodeAt st.next_node_id t1.description tid ctx])
        ++ [taskNodeAt (st.next_node_id + 1) t2.description tid ctx])
      (st.next_node_id + 1) = true
    rw [listHasNode_append]
    simp [taskNodeAt]
  have h3 : OrchState.add_graph_node
      { st with
        results := st.results ++ [art],
        query_context := some di,
        graph := some { g with
          nodes := (g.nodes ++ [taskNodeAt st.next_node_id t1.description tid ctx])
            ++ [taskNodeAt (st.next_node_id + 1) t2.description tid ctx],
          edges := (g.edges ++ [(c, st.next_node_id)])
            ++ [(st.next_node_id, st.next_node_id + 1)] },
        next_node_id := st.next_node_id + 2 }
      tid ctx t3.description (some (st.next_node_id + 1)) none none
      = ({ st with
            results := st.results ++ [art],
            query_context := some di,
            graph := some { g with
              nodes := ((g.nodes ++ [taskNodeAt st.next_node_id t1.description tid ctx])
                ++ [taskNodeAt (st.next_node_id + 1) t2.description tid ctx])
                ++ [taskNodeAt (st.next_node_id + 2) t3.description tid ctx],
              edges := ((g.edges ++ [(c, st.next_node_id)])
                ++ [(st.next_node_id, st.next_node_id + 1)])
                ++ [(st.next_node_id + 1, st.next_node_id + 2)] },
            next_node_id := st.next_node_id + 3 },
         .ok ⟨st.next_node_id + 2, t3.description, none, none, AttrVal.empty⟩) :=
    add_graph_node_spec _
      { g with
        nodes := (g.nodes ++ [taskNodeAt st.next_node_id t1.description tid ctx])
          ++ [taskNodeAt (st.next_node_id + 1) t2.description tid ctx],
        edges := (g.edges ++ [(c, st.next_node_id)])
          ++ [(st.next_node_id, st.next_node_id + 1)] }
      (st.next_node_id + 1) tid ctx t3.description none none rfl hb2 hc2
  refine ⟨{ g with
      nodes := ((g.nodes ++ [taskNodeAt st.next_node_id t1.description tid ctx])
        ++ [taskNodeAt (st.next_node_id + 1) t2.description tid ctx])
        ++ [taskNodeAt (st.next_node_id + 2) t3.description tid ctx],
      edges := ((g.edges ++ [(c, st.next_node_id)])
        ++ [(st.next_node_id, st.next_node_id + 1)])
        ++ [(st.next_node_id + 1, st.next_node_id + 2)] },
    ?_, ?_, ?_, ?_, ?_⟩
  · rw [hrun,
      expandTasks_cons _ _ _ _ _ _ _ _ _ _ _ _ _ _ _ h1,
      expandTasks_cons _ _ _ _ _ _ _ _ _ _ _ _ _ _ _ h2,
      expandTasks_cons _ _ _ _ _ _ _ _ _ _ _ _ _ _ _ h3]
    simp [expandTasks]
  · simp
  · simp [taskNodeAt]
  · simp [taskNodeAt]
  · rfl

/-- The concrete context right after root creation for the first query. -/
def rootScenario : OrchState := (streamPrologue initState "plan a trip" "ctx0" "t0").1

/-- The graph rootScenario holds: exactly the root planner node 0. -/
def rootGraph : WorkflowGraph :=
  ⟨[⟨0, "plan a trip", some "planner", some "Planner",
      ⟨some "t0", some "ctx0", some "plan a trip"⟩⟩],
   [], Status.NOT_STARTED, none⟩

/-- A concrete well-formed plan artifact carrying three sub-tasks. -/
def planArtifact : Artifact :=
  ⟨"PlannerAgent-result",
   ⟨some "payload", some [⟨"fetch data"⟩, ⟨"compute totals"⟩, ⟨"report"⟩]⟩⟩

/-- Witness for C4: the concrete three-task plan artifact arriving at root
node 0 chains nodes 1, 2, 3 with edges 0-1, 1-2, 2-3 in order, moves the
start node to node 1 and sets the resume flag. -/
theorem plan_expansion_chains_tasks_in_order_witness :
    ∃ g' : WorkflowGraph,
      handleArtifactEvent rootScenario (some 0) false planArtifact "t0" "ctx0"
        = ({ rootScenario with
              graph := some g',
              results := rootScenario.results ++ [planArtifact],
              query_context := some "payload",
              next_node_id := rootScenario.next_node_id + 3 },
           .ok (some rootScenario.next_node_id, true, false))
      ∧ g'.edges = rootGraph.edges ++
          [(0, rootScenario.next_node_id),
           (rootScenario.next_node_id, rootScenario.next_node_id + 1),
           (rootScenario.next_node_id + 1, rootScenario.next_node_id + 2)]
      ∧ g'.nodes.map WorkflowNode.task
          = rootGraph.nodes.map WorkflowNode.task
            ++ ["fetch data", "compute totals", "report"]
      ∧ g'.nodes.map WorkflowNode.id
          = rootGraph.nodes.map WorkflowNode.id
            ++ [rootScenario.next_node_id, rootScenario.next_node_id + 1,
                rootScenario.next_node_id + 2]
      ∧ g'.state = rootGraph.state :=
  plan_expansion_chains_tasks_in_order rootScenario rootGraph 0
    ⟨"fetch data"⟩ ⟨"compute totals"⟩ ⟨"report"⟩ "payload" false "t0" "ctx0"
    planArtifact (by decide) (by decide) (by decide) rfl rfl rfl

end Abi
